import Mathlib

/-!
Verification of the luminoso repository's core against its specification:
the bounded priority index, the association-matrix eviction handler, and
the term-statistics store (term_database.py, model.py).
-/

namespace Luminoso

/-- Python exception kinds that the embedded code can raise, plus the
spec's `EmptyProjection` error (which appears in the spec's error
taxonomy but nowhere in the source). -/
inductive PyError where
  | attributeError
  | zeroDivisionError
  | assertionError
  | notImplementedError
  | typeError
  | emptyProjection
deriving DecidableEq

/-- A term as passed around by the source: either a plain string
(unigram or space-separated bigram), or a tag tuple `(TAG, key, value)`
from text_readers.py. -/
inductive PyTerm where
  | str (s : String)
  | tag (key value : String)
deriving DecidableEq

/-- Sentinel term `ANY = '*'` from term_database.py, tracking aggregate
totals. -/
def ANY : PyTerm := .str "*"

/-! ### PrioritySet (bounded priority index)

The priority index used by model.py is `divisi2.ordered_set.PrioritySet`,
which is external to this repository; only its callers
(`LuminosoModel.index_term`) and the test `test_model.test_small` are in
the source tree. -/

/-- Modelled from the spec: `divisi2.ordered_set.PrioritySet`, the
bounded bijection between terms and slots `[0, capacity)` of spec §4.1,
with min-priority eviction at capacity. The implementation itself is
missing from the source tree; where the spec's `insert` contract and the
repository's own test `test_small` (src/test/test_model.py) disagree —
the test pins that `add` on a full set evicts the minimum-priority
occupant unconditionally — the test's pinned behavior is followed.
Slot `i` holds `items[i]` with priority `priorities[i]`. -/
structure PrioritySet where
  maxsize : Nat
  items : List PyTerm
  priorities : List ℚ
deriving DecidableEq

/-- Index of the first minimal element of a priority list (deterministic
tie-break: earliest slot loses first, per spec §4.1). -/
def idxOfMin (l : List ℚ) : Nat :=
  match l.min? with
  | none => 0
  | some m => l.indexOf m

/-- Modelled from the spec: `PrioritySet.add`. If the term already holds
a slot, return it. Otherwise take the next free slot, or — at capacity —
evict the minimum-priority occupant (notifying drop listeners) and reuse
its slot. A freshly added term gets a default priority of 0 until
`update` is called. Returns the slot and the new state. -/
def PrioritySet.add (ps : PrioritySet) (term : PyTerm) : Nat × PrioritySet :=
  if term ∈ ps.items then
    (ps.items.indexOf term, ps)
  else if ps.items.length < ps.maxsize then
    (ps.items.length,
     { ps with items := ps.items ++ [term], priorities := ps.priorities ++ [0] })
  else
    let m := idxOfMin ps.priorities
    (m, { ps with items := ps.items.set m term, priorities := ps.priorities.set m 0 })

/-- Modelled from the spec: `PrioritySet.update`, changing the priority
key of a tracked term (no-op on an untracked term). -/
def PrioritySet.update (ps : PrioritySet) (term : PyTerm) (priority : ℚ) : PrioritySet :=
  if term ∈ ps.items then
    { ps with priorities := ps.priorities.set (ps.items.indexOf term) priority }
  else ps

/-- Embedding of `LuminosoModel.index_term` (model.py): `add` the term,
then update its priority only when the passed priority is truthy —
Python's `if priority:` is false for `0`, so a priority of 0 is never
written. Returns the slot and the new state. -/
def index_term (ps : PrioritySet) (term : PyTerm) (priority : ℚ) : Nat × PrioritySet :=
  let r := ps.add term
  if priority = 0 then r else (r.1, r.2.update term priority)

/-! Scenario A states (spec §8 / test_small): capacity 3, inserting
a(2), b(1), c(3), d(4), e(0). -/

/-- Empty capacity-3 priority set. -/
def psEmpty : PrioritySet := ⟨3, [], []⟩

/-- State after inserting a(priority 2). -/
def psA : PrioritySet := (index_term psEmpty (.str "a") 2).2

/-- State after inserting b(priority 1). -/
def psB : PrioritySet := (index_term psA (.str "b") 1).2

/-- State after inserting c(priority 3); the set is now full. -/
def psC : PrioritySet := (index_term psB (.str "c") 3).2

/-- State after inserting d(priority 4), which evicts b. -/
def psD : PrioritySet := (index_term psC (.str "d") 4).2

/-- State after inserting e(priority 0). -/
def psE : PrioritySet := (index_term psD (.str "e") 0).2

/-! ### Association-matrix eviction handler (model.py / luminoso_space.py)

Both `LuminosoModel.on_drop` and `LuminosoSpace.on_drop` perform
`self.assoc.left[index, :] = 0` when the PrioritySet notifies them that
a slot was dropped. The left factor of the reconstructed matrix is
modelled as a function from (row, column) to its numeric entry;
the float entries are modelled as exact rationals. -/

/-- Embedding of `LuminosoModel.on_drop` (identical to
`LuminosoSpace.on_drop`): zero out row `index` of the left factor of the
association matrix. -/
def on_drop (left : Nat → Nat → ℚ) (index : Nat) : Nat → Nat → ℚ :=
  fun i j => if i = index then 0 else left i j

/-! ### Bigram likelihood ratio (term_database.py) -/

/-- Constant `_SMALL = 1e-22` from term_database.py. -/
noncomputable def _SMALL : ℝ := 1e-22

/-- Constant `_BIG = 1e9` from term_database.py. -/
noncomputable def _BIG : ℝ := 1e9

/-- Embedding of `_expected_values` (term_database.py): expected values
of a 2x2 contingency table given as the list of its four cells, using
the `i ^^^ 1` / `i ^^^ 2` index arithmetic of the source. -/
noncomputable def _expected_values (cont : List ℝ) : List ℝ :=
  let n : ℝ := cont.sum
  (List.range 4).map fun i =>
    (cont.getD i 0 + cont.getD (i ^^^ 1) 0) * (cont.getD i 0 + cont.getD (i ^^^ 2) 0) / n

/-- Embedding of `bigram_likelihood_ratio` (term_database.py): the NLTK
log-likelihood-ratio significance of a bigram with count `n_12`, whose
words have counts `n_1` and `n_2`, out of `n` total observations. Each
contingency cell is Laplace-smoothed by +1 and `_SMALL` guards the
logarithm. -/
noncomputable def bigram_likelihood_ratio (n_12 n_1 n_2 n : ℝ) : ℝ :=
  let n_o2 := n_2 - n_12
  let n_1o := n_1 - n_12
  let n_oo := n - n_12 - n_1o - n_o2
  let contingency : List ℝ := [n_12 + 1, n_o2 + 1, n_1o + 1, n_oo + 1]
  let expected := _expected_values contingency
  2 * ((contingency.zip expected).map
        (fun p => p.1 * Real.log (p.1 / (p.2 + _SMALL) + _SMALL))).sum

/-! ### TermDatabase (term_database.py)

The SQLite tables are modelled as: `terms` (keyed by term), the
`document_terms` rows as an association list with a unique
`(term, document)` key, `documents` (keyed by document id), and
`document_features` (keyed by document and tag key). SQL floats are
modelled as exact rationals. The session is modelled as the current
state; `commit()` is the identity. -/

/-- Row of the `terms` table: total occurrence count, number of distinct
documents, the stored relevance score, and the optional full text. -/
structure TermEntry where
  count : ℚ
  distinct_docs : ℤ
  relevance : ℝ
  fulltext : Option String

/-- Row of the `documents` table (sans the id, which is the key). -/
structure DocRecord where
  name : String
  reader : String
  text : String
deriving DecidableEq

/-- A row of the `document_terms` table: term, document id, count. -/
abbrev DocTermRow : Type := PyTerm × String × ℚ

/-- Update a function-backed table at one key. -/
def setMap {α β : Type} [DecidableEq α] (f : α → Option β) (k : α) (v : β) :
    α → Option β :=
  fun x => if x = k then some v else f x

/-- The in-memory state of a `TermDatabase`: the four tables plus the
`term_count_cache` dictionary. -/
structure TermDB where
  terms : PyTerm → Option TermEntry
  docTerms : List DocTermRow
  documents : String → Option DocRecord
  features : String → String → Option String
  term_count_cache : PyTerm → Option ℚ

/-- A fresh, empty database (`TermDatabase(filename)` on a new file). -/
def emptyDB : TermDB := ⟨fun _ => none, [], fun _ => none, fun _ _ => none, fun _ => none⟩

/-- Extract the state from a successful database operation, with a
fallback for the error case. -/
def okOr (e : Except PyError TermDB) (d : TermDB) : TermDB :=
  match e with
  | .ok s => s
  | .error _ => d

/-- Count of the first `document_terms` row matching `(term, document)`
(the table has a unique index on that pair). -/
def lookupRow : List DocTermRow → PyTerm → String → Option ℚ
  | [], _, _ => none
  | r :: rest, term, document =>
    if r.1 = term ∧ r.2.1 = document then some r.2.2
    else lookupRow rest term document

/-- Add `value` to the count of the first row matching `(term, document)`. -/
def bumpRow : List DocTermRow → PyTerm → String → ℚ → List DocTermRow
  | [], _, _, _ => []
  | r :: rest, term, document, value =>
    if r.1 = term ∧ r.2.1 = document then (r.1, r.2.1, r.2.2 + value) :: rest
    else r :: bumpRow rest term document value

/-- Embedding of `TermDatabase.count_term`: the cached count if present,
else the `count` column of the `terms` row, else 0. (The cache writes
inside the source's `count_term` itself are keyed by the ORM row object
rather than by the term, so they can never be read back through a term
key and are not modelled; the cache is only populated by
`_increment_term_count`.) -/
def count_term (db : TermDB) (term : PyTerm) : ℚ :=
  match db.term_count_cache term with
  | some c => c
  | none =>
    match db.terms term with
    | some e => e.count
    | none => 0

/-- Embedding of `TermDatabase._increment_term_count`: add `value` to
the term's global count (creating the row if `newdoc`), bump its
distinct-document count when `newdoc`, and refresh the count cache.
The source's `assert newdoc` on a missing term is an AssertionError. -/
def _increment_term_count (db : TermDB) (term : PyTerm) (value : ℚ) (newdoc : Bool) :
    Except PyError TermDB :=
  match db.terms term with
  | some e =>
    let newcount := e.count + value
    .ok { db with
          terms := setMap db.terms term
            { e with count := newcount,
                     distinct_docs := e.distinct_docs + (if newdoc then 1 else 0) },
          term_count_cache := fun x => if x = term then some newcount else db.term_count_cache x }
  | none =>
    if newdoc then .ok { db with terms := setMap db.terms term ⟨value, 1, 0, none⟩ }
    else .error .assertionError

/-- Embedding of `TermDatabase._increment_term_document_count`: add
`value` to the `(term, document)` row, or create it; the Bool is True
exactly when the term had not appeared in that document before. -/
def _increment_term_document_count (db : TermDB) (document : String) (term : PyTerm)
    (value : ℚ) : Bool × TermDB :=
  match lookupRow db.docTerms term document with
  | some _ => (false, { db with docTerms := bumpRow db.docTerms term document value })
  | none => (true, { db with docTerms := db.docTerms ++ [(term, document, value)] })

/-- Embedding of `json_encode` (escaping of special characters inside
the value is not modelled; no claim inspects feature values). -/
def json_encode (value : String) : String := "\"" ++ value ++ "\""

/-- Embedding of `TermDatabase.set_tag_on_document`: upsert the
`(document, key)` feature row with the JSON-encoded value. -/
def set_tag_on_document (db : TermDB) (document key value : String) : TermDB :=
  { db with features := fun d k =>
      if d = document ∧ k = key then some (json_encode value) else db.features d k }

/-- Helper for `splitWords`: accumulate the current word (in reverse). -/
def splitWordsAux : List Char → List Char → List String
  | [], acc => [String.mk acc.reverse]
  | c :: rest, acc =>
    if c = ' ' then String.mk acc.reverse :: splitWordsAux rest []
    else splitWordsAux rest (c :: acc)

/-- Python's `s.split(' ')`: split at every single space, keeping empty
pieces (so it never returns an empty list). -/
def splitWords (s : String) : List String := splitWordsAux s.toList []

/-- Embedding of `TermDatabase.term_relevance`. The source starts with
`words = term.split(' ')`, which raises AttributeError when the term is
a tag tuple (tuples have no `split`), so the subsequent
`isinstance(term, tuple): return _BIG` branch is unreachable; for a
one-word string it returns the term count, for two words the bigram
likelihood ratio, and for three or more it raises NotImplementedError. -/
noncomputable def term_relevance (db : TermDB) (term : PyTerm) : Except PyError ℝ :=
  match term with
  | .tag _ _ => .error .attributeError
  | .str s =>
    let words := splitWords s
    if words.length = 1 then .ok ((count_term db term : ℝ))
    else if words.length = 2 then
      .ok (bigram_likelihood_ratio (count_term db term)
            (count_term db (.str (words.getD 0 "")))
            (count_term db (.str (words.getD 1 "")))
            (count_term db ANY))
    else .error .notImplementedError

/-- Embedding of `TermDatabase._update_term_relevance`: store the
freshly computed relevance on the term's row. Python evaluates the
right-hand side `self.term_relevance(term)` before the attribute store,
so a relevance error surfaces first; a missing row then raises
AttributeError (attribute assignment on None). -/
noncomputable def _update_term_relevance (db : TermDB) (term : PyTerm) :
    Except PyError TermDB := do
  let rel ← term_relevance db term
  match db.terms term with
  | some e => .ok { db with terms := setMap db.terms term { e with relevance := rel } }
  | none => .error .attributeError

/-- Embedding of `TermDatabase.increment_term_in_document`: tags are
diverted to `set_tag_on_document`; otherwise the per-document count
gets the signed `value` while the term's global count and both ANY
counters get `abs(value)`, and the term's relevance is recomputed. -/
noncomputable def increment_term_in_document (db : TermDB) (document : String)
    (term : PyTerm) (value : ℚ) : Except PyError TermDB :=
  match term with
  | .tag key v => .ok (set_tag_on_document db document key v)
  | .str _ => do
    let r1 := _increment_term_document_count db document term value
    let absv := |value|
    let db2 ← _increment_term_count r1.2 term absv r1.1
    let r3 := _increment_term_document_count db2 document ANY absv
    let db4 ← _increment_term_count r3.2 ANY absv r3.1
    _update_term_relevance db4 term

/-- Charitable embedding of one iteration of the `_clear_document` loop
body. As written the source tuple-unpacks the mapped row object
(`term, document, count = row`) and calls `row.delete()`, neither of
which the ORM API supports — a literal run raises TypeError on the first
row; the embedding reads the row's columns and removes the row, which is
the evident intent. It subtracts the row's count from the term's global
count, decrements the term's distinct-document count, and deletes the
row; a missing term row raises AttributeError. -/
def clearRow (db : TermDB) (r : DocTermRow) : Except PyError TermDB :=
  match db.terms r.1 with
  | some e =>
    .ok { db with
          terms := setMap db.terms r.1
            { e with count := e.count - r.2.2, distinct_docs := e.distinct_docs - 1 },
          docTerms := db.docTerms.erase r }
  | none => .error .attributeError

/-- Embedding of `TermDatabase._clear_document`: iterate over every
`document_terms` row of the document (clearing each term's counters and
deleting the row), then decrement the ANY term's distinct-document count
once more, then delete the document row (`doc.delete()`; a missing
document or ANY row raises AttributeError). -/
def _clear_document (db : TermDB) (document : String) : Except PyError TermDB := do
  let rows := db.docTerms.filter (fun r => r.2.1 == document)
  let docEntry := db.documents document
  let db1 ← rows.foldlM clearRow db
  let db2 ← match db1.terms ANY with
    | some e =>
      Except.ok { db1 with
                  terms := setMap db1.terms ANY
                    { e with distinct_docs := e.distinct_docs - 1 } }
    | none => Except.error PyError.attributeError
  match docEntry with
  | some _ => .ok { db2 with documents := fun x => if x = document then none else db2.documents x }
  | none => .error .attributeError

/-- Embedding of `TermDatabase.clear_document` (`_clear_document` plus
`commit`, the latter the identity in this model). -/
def clear_document (db : TermDB) (document : String) : Except PyError TermDB :=
  _clear_document db document

/-- The `doc_info` dictionary handed to `add_document`. The source also
accepts bare terms in the `terms` list (defaulting their value to 1),
but its only caller (model.py) always builds `(term, value)` pairs, so
the embedding takes pairs. -/
structure DocInfo where
  name : String
  url : String
  terms : List (PyTerm × ℚ)
  text : String
  reader : String
  tags : List (String × String)

/-- The body of `add_document` after the replacement check: increment
every term of the document, set its tags, and store the document row. -/
noncomputable def add_document_body (db : TermDB) (info : DocInfo) :
    Except PyError TermDB := do
  let db1 ← info.terms.foldlM
    (fun d p => increment_term_in_document d info.url p.1 p.2) db
  let db2 := info.tags.foldl (fun d p => set_tag_on_document d info.url p.1 p.2) db1
  .ok { db2 with documents := setMap db2.documents info.url ⟨info.name, info.reader, info.text⟩ }

/-- Embedding of `TermDatabase.add_document`: if a document with this id
is already stored and neither its text nor its reader changed, return
with no change at all; if one changed, first retract the old document
with `_clear_document`; then record the new contribution. -/
noncomputable def add_document (db : TermDB) (info : DocInfo) : Except PyError TermDB :=
  match db.documents info.url with
  | some doc =>
    if doc.text = info.text ∧ doc.reader = info.reader then .ok db
    else do
      let db1 ← _clear_document db info.url
      add_document_body db1 info
  | none => add_document_body db info

/-- Embedding of `TermDatabase.count_term_in_document`: the count column
of the `(term, document)` row, or 0 when absent. -/
def count_term_in_document (db : TermDB) (term : PyTerm) (document : String) : ℚ :=
  (lookupRow db.docTerms term document).getD 0

/-- Embedding of `TermDatabase.count_term_distinct_documents`: the
distinct-document column of the term's row, or 0 when absent. -/
def count_term_distinct_documents (db : TermDB) (term : PyTerm) : ℤ :=
  match db.terms term with
  | some e => e.distinct_docs
  | none => 0

/-- Embedding of `TermDatabase.count_documents`: the distinct-document
count of the sentinel ANY. -/
def count_documents (db : TermDB) : ℤ :=
  count_term_distinct_documents db ANY

/-- The `count` column of a term's row (0 when absent): the quantity
`_increment_term_count` maintains, read without the count cache. -/
def term_global_count (db : TermDB) (term : PyTerm) : ℚ :=
  match db.terms term with
  | some e => e.count
  | none => 0

/-- Embedding of `TermDatabase.term_idf`: note the source computes
`log(2 + distinct_docs(ANY)) - log(1 + distinct_docs(term))`. -/
noncomputable def term_idf (db : TermDB) (term : PyTerm) : ℝ :=
  Real.log (2 + (count_term_distinct_documents db ANY : ℝ))
    - Real.log (1 + (count_term_distinct_documents db term : ℝ))

/-- Embedding of `TermDatabase.tfidf_term_in_document`: term frequency
`count(term in doc) / count(ANY in doc)` — raising ZeroDivisionError
when the document has no rows — times an inline IDF
`log(1 + distinct_docs(ANY)) - log(1 + distinct_docs(term))` (which
differs from `term_idf`). -/
noncomputable def tfidf_term_in_document (db : TermDB) (term : PyTerm)
    (document : String) : Except PyError ℝ :=
  let denom := count_term_in_document db ANY document
  if denom = 0 then .error .zeroDivisionError
  else
    let tf : ℚ := count_term_in_document db term document / denom
    .ok ((tf : ℝ) *
      (Real.log (1 + (count_term_distinct_documents db ANY : ℝ))
        - Real.log (1 + (count_term_distinct_documents db term : ℝ))))

/-! ### LuminosoModel (model.py): vector queries -/

/-- The slice of `LuminosoModel` state that `vector_from_terms` reads:
the PrioritySet of row labels, the term database, the `idf_cache`
dictionary, and the left factor of the association matrix (entries
modelled as exact rationals) with its number of latent axes. -/
structure LumModel where
  priority : PrioritySet
  database : TermDB
  idf_cache : PyTerm → Option ℝ
  left : Nat → Nat → ℚ
  num_axes : Nat

/-- Embedding of `LuminosoModel.get_term_idf`: the cached IDF when
present, else `term_idf` from the database (the source also stores the
freshly computed value in the cache; that write is value-transparent
and the cache is modelled as read-only state here). -/
noncomputable def get_term_idf (m : LumModel) (term : PyTerm) : ℝ :=
  match m.idf_cache term with
  | some v => v
  | none => term_idf m.database term

/-- Euclidean norm of a vector as computed by `np.linalg.norm`. -/
noncomputable def pyNorm (v : List ℝ) : ℝ :=
  Real.sqrt ((v.map (fun x => x ^ 2)).sum)

/-- One iteration of the `vector_from_terms` loop: skip a term that
holds no slot; otherwise compute
`tfidf_weight = weight * get_term_idf(term) / total_weight` — Python
evaluates the product first, then the division, raising
ZeroDivisionError when `total_weight` is zero — assert that the weight
is positive, and write it at the term's slot. -/
noncomputable def vft_step (m : LumModel) (total_weight : ℚ) (vec : List ℝ)
    (p : PyTerm × ℚ) : Except PyError (List ℝ) :=
  if p.1 ∈ m.priority.items then
    if total_weight = 0 then .error .zeroDivisionError
    else
      let w : ℝ := (p.2 : ℝ) * get_term_idf m p.1 / (total_weight : ℝ)
      if 0 < w then .ok (vec.set (m.priority.items.indexOf p.1) w)
      else .error .assertionError
  else .ok vec

/-- Embedding of `LuminosoModel.vector_from_terms`: sum the weights,
fill a zero vector (indexed by the priority slots) with the TF-IDF
weights of the tracked terms, `assert np.linalg.norm(vec) > 0`, multiply
by the left factor, and `assert np.linalg.norm(category) > 0`. There is
no `EmptyProjection` anywhere in the source: the failure modes are
AssertionError and ZeroDivisionError. -/
noncomputable def vector_from_terms (m : LumModel) (terms : List (PyTerm × ℚ)) :
    Except PyError (List ℝ) := do
  let total_weight : ℚ := terms.foldl (fun acc p => acc + p.2) 0
  let vec ← terms.foldlM (vft_step m total_weight)
    (List.replicate m.priority.items.length (0 : ℝ))
  if 0 < pyNorm vec then
    let category : List ℝ :=
      (List.range m.num_axes).map
        (fun j => (vec.enum.map (fun q => q.2 * (m.left q.1 j : ℝ))).sum)
    if 0 < pyNorm category then .ok category else .error .assertionError
  else .error .assertionError

/-! ### Claims -/

/-- Claim C1, counterexample. The claim states that inserting e with
priority 0 into the full set {a: 2, c: 3, d: 4} is rejected (0 is not
strictly greater than the minimum priority) leaving the occupant set
{a, c, d} unchanged. In fact the insertion goes through: `index_term`
passes priority 0, which is falsy in `if priority:`, and the add itself
evicts the minimum-priority occupant a, so the state changes, e takes
slot 0, and a is no longer an occupant. -/
theorem C1_counterexample :
    (index_term psD (.str "e") 0).2 ≠ psD ∧
    psE.items = [.str "e", .str "d", .str "c"] ∧
    (PyTerm.str "a") ∉ psE.items := by
  refine ⟨?_, by decide, by decide⟩
  decide

/-- Claim C1, amended: with capacity 3, inserting a(2), b(1), c(3)
fills slots 0, 1, 2; inserting d(4) evicts the minimum-priority
occupant b and d takes slot 1; but inserting e with priority 0 is NOT
rejected — the priority 0 is falsy so it is never compared, `add`
evicts the current minimum-priority occupant a, and e takes slot 0,
leaving the occupant set {e, d, c} (exactly as the repository's test
`test_small` asserts); re-inserting e again returns slot 0 and changes
nothing. -/
theorem C1_theorem :
    (index_term psEmpty (.str "a") 2).1 = 0 ∧
    (index_term psA (.str "b") 1).1 = 1 ∧
    (index_term psB (.str "c") 3).1 = 2 ∧
    psC.items = [.str "a", .str "b", .str "c"] ∧
    (index_term psC (.str "d") 4).1 = 1 ∧
    psD.items = [.str "a", .str "d", .str "c"] ∧
    (index_term psD (.str "e") 0).1 = 0 ∧
    psE.items = [.str "e", .str "d", .str "c"] ∧
    (index_term psE (.str "e") 0).1 = 0 ∧
    (index_term psE (.str "e") 0).2 = psE := by
  decide

/-- Claim C4: when the priority index drops slot `index`, the eviction
handler `on_drop` resets row `index` of the association matrix's left
factor to the zero vector, so reading any entry of that row immediately
afterwards gives 0 — whatever the row held before. -/
theorem C4_theorem :
    ∀ (left : Nat → Nat → ℚ) (index j : Nat), on_drop left index index j = 0 := by
  intro left index j
  simp [on_drop]

/-- Claim C6: the claim states that tag-type terms get relevance `_BIG`.
In the source, `words = term.split(' ')` runs before the
`isinstance(term, tuple)` check, and a tuple has no `split` method, so
`term_relevance` on a tag term raises AttributeError; the
`return _BIG` branch is unreachable. -/
theorem C6_theorem :
    ∀ (db : TermDB) (key value : String),
      term_relevance db (.tag key value) = .error .attributeError ∧
      term_relevance db (.tag key value) ≠ .ok _BIG := by
  intro db key value
  exact ⟨rfl, by simp [term_relevance]⟩

/-! ### Concrete scenario state: one document containing the single
term "cat" (spec §8, scenario B reduced to one term). -/

/-- The document dictionary for a document "#d1" whose text produced
the single term "cat" with weight 1. -/
noncomputable def docCat : DocInfo :=
  ⟨"d1", "#d1", [(.str "cat", 1)], "cat", "simplenlp.en", []⟩

/-- The database after adding `docCat` to an empty database. -/
noncomputable def st_cat : TermDB := okOr (add_document emptyDB docCat) emptyDB

/-- The database after `clear_document "#d1"` on `st_cat`. -/
noncomputable def st_cleared : TermDB := okOr (clear_document st_cat "#d1") emptyDB

/-- Claim C2, counterexample. The claim states the IDF accessor returns
`ln(1 + total_documents) - ln(1 + distinct_documents(term))`. On the
state with exactly one document containing "cat", `term_idf` returns
`ln(2 + 1) - ln(1 + 1) = ln 3 - ln 2 ≠ 0`, while the claimed formula
gives `ln 2 - ln 2 = 0`: the source adds 2, not 1, to the document
total. -/
theorem C2_counterexample :
    term_idf st_cat (.str "cat") ≠
      Real.log (1 + (count_documents st_cat : ℝ))
        - Real.log (1 + (count_term_distinct_documents st_cat (.str "cat") : ℝ)) := by
  have h1 : count_documents st_cat = 1 := by decide
  have h2 : count_term_distinct_documents st_cat (.str "cat") = 1 := by decide
  have e : term_idf st_cat (.str "cat") =
      Real.log (2 + (count_documents st_cat : ℝ))
        - Real.log (1 + (count_term_distinct_documents st_cat (.str "cat") : ℝ)) := rfl
  rw [e, h1, h2]
  have hlt : Real.log 2 < Real.log 3 := Real.log_lt_log (by norm_num) (by norm_num)
  push_cast
  have h23 : (2 : ℝ) + 1 = 3 := by norm_num
  have h12 : (1 : ℝ) + 1 = 2 := by norm_num
  rw [h23, h12]
  intro hcontra
  linarith

/-- Claim C2, amended: for every term, `term_idf` returns
`ln(2 + total_documents) - ln(1 + distinct_documents(term))`; in
particular, with exactly one document present containing "cat",
`idf("cat")` equals `ln 3 - ln 2`, which is strictly positive rather
than 0. -/
theorem C2_theorem :
    (∀ (db : TermDB) (t : PyTerm),
       term_idf db t = Real.log (2 + (count_documents db : ℝ))
         - Real.log (1 + (count_term_distinct_documents db t : ℝ))) ∧
    term_idf st_cat (.str "cat") = Real.log 3 - Real.log 2 ∧
    0 < term_idf st_cat (.str "cat") := by
  have h1 : count_documents st_cat = 1 := by decide
  have h2 : count_term_distinct_documents st_cat (.str "cat") = 1 := by decide
  have e : term_idf st_cat (.str "cat") =
      Real.log (2 + (count_documents st_cat : ℝ))
        - Real.log (1 + (count_term_distinct_documents st_cat (.str "cat") : ℝ)) := rfl
  have e3 : term_idf st_cat (.str "cat") = Real.log 3 - Real.log 2 := by
    rw [e, h1, h2]; norm_num
  refine ⟨fun db t => rfl, e3, ?_⟩
  rw [e3]
  have hlt : Real.log 2 < Real.log 3 := Real.log_lt_log (by norm_num) (by norm_num)
  linarith

/-- Claim C3: retracting a stored document through `clear_document`.
On the state with one document "#d1" containing the single term "cat",
the per-term counters are indeed reversed (cat's count and
distinct-document count return to 0, ANY's count returns to 0), but the
ANY distinct-document counter — 1 before the retraction — ends at -1,
not 0: the loop already decremented it once for ANY's own
`document_terms` row and the final `any_term.distinct_docs -= 1`
decrements it a second time. This contradicts the claim that the global
ANY distinct-document counter is decremented exactly once for the
document as a whole. -/
theorem C3_theorem :
    (clear_document st_cat "#d1").isOk = true ∧
    count_term_distinct_documents st_cat ANY = 1 ∧
    count_term_distinct_documents st_cleared ANY = -1 ∧
    count_term_distinct_documents st_cleared (.str "cat") = 0 ∧
    term_global_count st_cleared (.str "cat") = 0 ∧
    term_global_count st_cleared ANY = 0 := by
  refine ⟨by decide, by decide, by decide, by decide, ?_, ?_⟩
  · have h : term_global_count st_cleared (.str "cat") = (1 : ℚ) - 1 := rfl
    rw [h]; norm_num
  · have h : term_global_count st_cleared ANY = (1 : ℚ) - 1 := rfl
    rw [h]; norm_num

/-- Claim C5, counterexample. The claim states the TF-IDF accessor is
guarded against division by zero and returns 0 for a document with no
recorded tokens. On the empty database (so the document "d1" has no
rows, and the count of ANY in it is 0), `tfidf_term_in_document` raises
ZeroDivisionError instead of returning 0. -/
theorem C5_counterexample :
    tfidf_term_in_document emptyDB (.str "cat") "d1" = .error .zeroDivisionError ∧
    tfidf_term_in_document emptyDB (.str "cat") "d1" ≠ .ok 0 := by
  have h1 : tfidf_term_in_document emptyDB (.str "cat") "d1" =
      .error .zeroDivisionError := rfl
  refine ⟨h1, ?_⟩
  rw [h1]
  exact fun hc => Except.noConfusion hc

/-- Claim C5, amended: when the document's ANY count is zero the
accessor raises ZeroDivisionError (there is no guard returning 0);
otherwise it returns `(count(term in doc) / count(ANY in doc))` times
the inline IDF `ln(1 + total_documents) - ln(1 + distinct_docs(term))`. -/
theorem C5_theorem :
    (∀ (db : TermDB) (t : PyTerm) (d : String),
       count_term_in_document db ANY d = 0 →
       tfidf_term_in_document db t d = .error .zeroDivisionError) ∧
    (∀ (db : TermDB) (t : PyTerm) (d : String),
       count_term_in_document db ANY d ≠ 0 →
       tfidf_term_in_document db t d =
         .ok (((count_term_in_document db t d / count_term_in_document db ANY d : ℚ) : ℝ)
           * (Real.log (1 + (count_documents db : ℝ))
              - Real.log (1 + (count_term_distinct_documents db t : ℝ))))) := by
  constructor
  · intro db t d h
    simp [tfidf_term_in_document, h]
  · intro db t d h
    simp only [tfidf_term_in_document, count_documents, if_neg h]

/-- Witness for C5_theorem: the zero-count case at the empty database
raises ZeroDivisionError; the nonzero case at the one-document state
returns the product formula. -/
theorem C5_witness :
    tfidf_term_in_document emptyDB (.str "cat") "d1" = .error .zeroDivisionError ∧
    tfidf_term_in_document st_cat (.str "cat") "#d1" =
      .ok (((count_term_in_document st_cat (.str "cat") "#d1"
              / count_term_in_document st_cat ANY "#d1" : ℚ) : ℝ)
        * (Real.log (1 + (count_documents st_cat : ℝ))
           - Real.log (1 + (count_term_distinct_documents st_cat (.str "cat") : ℝ)))) :=
  ⟨C5_theorem.1 emptyDB (.str "cat") "d1" rfl,
   C5_theorem.2 st_cat (.str "cat") "#d1" (by decide)⟩

/-! ### C7: failure modes of vector_from_terms -/

/-- Norm of an all-zero vector is zero. -/
lemma pyNorm_replicate_zero (n : Nat) : pyNorm (List.replicate n (0 : ℝ)) = 0 := by
  simp [pyNorm]

/-- If no queried term holds a slot, the filling loop returns the vector
unchanged. -/
lemma vft_fold_untracked (m : LumModel) (total : ℚ) (terms : List (PyTerm × ℚ))
    (vec : List ℝ) (h : ∀ p ∈ terms, p.1 ∉ m.priority.items) :
    terms.foldlM (vft_step m total) vec = .ok vec := by
  induction terms generalizing vec with
  | nil => rfl
  | cons p rest ih =>
    have hp : p.1 ∉ m.priority.items := h p (List.mem_cons_self p rest)
    have hstep : vft_step m total vec p = .ok vec := by simp [vft_step, hp]
    rw [List.foldlM_cons, hstep]
    exact ih vec (fun q hq => h q (List.mem_cons_of_mem p hq))

/-- With a zero total weight, the filling loop raises ZeroDivisionError
at the first term that holds a slot. -/
lemma vft_fold_zero_total (m : LumModel) (terms : List (PyTerm × ℚ))
    (vec : List ℝ) (h : ∃ p ∈ terms, p.1 ∈ m.priority.items) :
    terms.foldlM (vft_step m 0) vec = .error .zeroDivisionError := by
  induction terms generalizing vec with
  | nil => simp at h
  | cons p rest ih =>
    by_cases hp : p.1 ∈ m.priority.items
    · have hstep : vft_step m 0 vec p = .error .zeroDivisionError := by
        simp [vft_step, hp]
      rw [List.foldlM_cons, hstep]
      rfl
    · obtain ⟨q, hq, hmem⟩ := h
      have hq' : q ∈ rest := by
        rcases List.mem_cons.1 hq with rfl | h'
        · exact absurd hmem hp
        · exact h'
      have hstep : vft_step m 0 vec p = .ok vec := by simp [vft_step, hp]
      rw [List.foldlM_cons, hstep]
      exact ih vec ⟨q, hq', hmem⟩

/-- Reduction of bind on a successful Except value. -/
lemma except_bind_ok {ε α β : Type} (a : α) (f : α → Except ε β) :
    (Except.ok a >>= f) = f a := rfl

/-- Unfolding of `vector_from_terms` into its fold and the two norm
asserts. -/
lemma vector_from_terms_eval (m : LumModel) (terms : List (PyTerm × ℚ)) :
    vector_from_terms m terms =
      (terms.foldlM (vft_step m (terms.foldl (fun acc p => acc + p.2) 0))
        (List.replicate m.priority.items.length (0 : ℝ))) >>= (fun vec =>
          if 0 < pyNorm vec then
            let category : List ℝ :=
              (List.range m.num_axes).map
                (fun j => (vec.enum.map (fun q => q.2 * (m.left q.1 j : ℝ))).sum)
            if 0 < pyNorm category then .ok category else .error .assertionError
          else .error .assertionError) := rfl

/-- A model with an empty priority set. -/
noncomputable def m0 : LumModel := ⟨⟨3, [], []⟩, emptyDB, fun _ => none, fun _ _ => 0, 2⟩

/-- A model tracking the single term "cat" in slot 0. -/
noncomputable def m1 : LumModel :=
  ⟨⟨3, [.str "cat"], [2]⟩, emptyDB, fun _ => none, fun _ _ => 0, 2⟩

/-- Claim C7, counterexample. The claim states that `vector_from_terms`
fails with an EmptyProjection error whenever no query term resolves to a
tracked slot. On a model whose priority set is empty, querying the
single term "cat" fails — but with an AssertionError from
`assert np.linalg.norm(vec) > 0`; no EmptyProjection exists anywhere in
the source. -/
theorem C7_counterexample :
    vector_from_terms m0 [(.str "cat", 1)] = .error .assertionError ∧
    vector_from_terms m0 [(.str "cat", 1)] ≠ .error .emptyProjection := by
  have hfold := vft_fold_untracked m0 ([((.str "cat" : PyTerm), (1 : ℚ))].foldl (fun acc p => acc + p.2) 0)
    [(.str "cat", 1)] (List.replicate m0.priority.items.length (0 : ℝ))
    (by simp [m0])
  have h1 : vector_from_terms m0 [(.str "cat", 1)] = .error .assertionError := by
    rw [vector_from_terms_eval, hfold, except_bind_ok, pyNorm_replicate_zero]
    simp
  refine ⟨h1, ?_⟩
  rw [h1]
  intro hc
  exact absurd (Except.error.inj hc) (by decide)

/-- Claim C7, amended: `vector_from_terms` does fail when no term
resolves to a tracked slot or when the total weight is zero, but not
with an EmptyProjection error (which does not exist in the source): it
raises AssertionError when no query term holds a slot (the zero vector
fails `assert norm > 0`), and ZeroDivisionError when some term holds a
slot but the total weight is zero. -/
theorem C7_theorem :
    (∀ (m : LumModel) (terms : List (PyTerm × ℚ)),
       (∀ p ∈ terms, p.1 ∉ m.priority.items) →
       vector_from_terms m terms = .error .assertionError) ∧
    (∀ (m : LumModel) (terms : List (PyTerm × ℚ)),
       terms.foldl (fun acc p => acc + p.2) 0 = 0 →
       (∃ p ∈ terms, p.1 ∈ m.priority.items) →
       vector_from_terms m terms = .error .zeroDivisionError) := by
  constructor
  · intro m terms h
    have hfold := vft_fold_untracked m (terms.foldl (fun acc p => acc + p.2) 0)
      terms (List.replicate m.priority.items.length (0 : ℝ)) h
    rw [vector_from_terms_eval, hfold, except_bind_ok, pyNorm_replicate_zero]
    simp
  · intro m terms htotal hsome
    rw [vector_from_terms_eval, htotal, vft_fold_zero_total m terms _ hsome]
    rfl

/-- Witness for C7_theorem: the untracked case on a model with an empty
priority set, and the zero-total-weight case on a model tracking "cat". -/
theorem C7_witness :
    vector_from_terms m0 [(.str "dog", 1)] = .error .assertionError ∧
    vector_from_terms m1 [(.str "cat", 0)] = .error .zeroDivisionError :=
  ⟨C7_theorem.1 m0 [(.str "dog", 1)] (by simp [m0]),
   C7_theorem.2 m1 [(.str "cat", 0)] (by simp)
     ⟨(.str "cat", 0), by simp, by simp [m1]⟩⟩

/-! ### C9: idempotence of add_document on identical input -/

/-- Eliminate a successful bind into its two successful stages. -/
lemma bind_ok_elim {ε α β : Type} {x : Except ε α} {f : α → Except ε β} {b : β}
    (h : x >>= f = .ok b) : ∃ a, x = .ok a ∧ f a = .ok b := by
  cases x with
  | ok a => exact ⟨a, rfl, h⟩
  | error e =>
    rw [show ((Except.error e : Except ε α) >>= f) = (Except.error e : Except ε β) from rfl] at h
    exact Except.noConfusion h

/-- `_increment_term_document_count` never touches the documents table. -/
lemma itdc_documents (db : TermDB) (d : String) (t : PyTerm) (v : ℚ) :
    (_increment_term_document_count db d t v).2.documents = db.documents := by
  unfold _increment_term_document_count
  split <;> rfl

/-- `_increment_term_count` never touches the documents table. -/
lemma itc_documents {db db' : TermDB} {t : PyTerm} {v : ℚ} {nd : Bool}
    (h : _increment_term_count db t v nd = .ok db') :
    db'.documents = db.documents := by
  unfold _increment_term_count at h
  split at h
  · injection h with h; subst h; rfl
  · split at h
    · injection h with h; subst h; rfl
    · exact Except.noConfusion h

/-- `_update_term_relevance` never touches the documents table. -/
lemma utr_documents {db db' : TermDB} {t : PyTerm}
    (h : _update_term_relevance db t = .ok db') :
    db'.documents = db.documents := by
  unfold _update_term_relevance at h
  obtain ⟨rel, hrel, h2⟩ := bind_ok_elim h
  split at h2
  · injection h2 with h2; subst h2; rfl
  · exact Except.noConfusion h2

/-- `increment_term_in_document` never touches the documents table. -/
lemma inc_documents {db db' : TermDB} {d : String} {t : PyTerm} {v : ℚ}
    (h : increment_term_in_document db d t v = .ok db') :
    db'.documents = db.documents := by
  cases t with
  | tag k val =>
    unfold increment_term_in_document at h
    injection h with h; subst h; rfl
  | str s =>
    simp only [increment_term_in_document] at h
    obtain ⟨db2, h2, hrest⟩ := bind_ok_elim h
    obtain ⟨db4, h4, h5⟩ := bind_ok_elim hrest
    rw [utr_documents h5, itc_documents h4, itdc_documents, itc_documents h2,
        itdc_documents]

/-- The whole term loop of `add_document` never touches the documents
table. -/
lemma fold_inc_documents (url : String) :
    ∀ (l : List (PyTerm × ℚ)) (db db' : TermDB),
      l.foldlM (fun d p => increment_term_in_document d url p.1 p.2) db = .ok db' →
      db'.documents = db.documents := by
  intro l
  induction l with
  | nil =>
    intro db db' h
    injection h with h; subst h; rfl
  | cons p rest ih =>
    intro db db' h
    rw [List.foldlM_cons] at h
    obtain ⟨dbm, h1, h2⟩ := bind_ok_elim h
    rw [ih _ _ h2, inc_documents h1]

/-- The tag loop of `add_document` never touches the documents table. -/
lemma fold_tag_documents (url : String) :
    ∀ (l : List (String × String)) (db : TermDB),
      (l.foldl (fun d p => set_tag_on_document d url p.1 p.2) db).documents
        = db.documents := by
  intro l
  induction l with
  | nil => intro db; rfl
  | cons p rest ih =>
    intro db
    rw [List.foldl_cons, ih]
    rfl

/-- After a successful `add_document_body`, the documents table holds the
just-stored record at the document's id. -/
lemma add_document_body_documents {db db' : TermDB} {info : DocInfo}
    (h : add_document_body db info = .ok db') :
    db'.documents info.url = some ⟨info.name, info.reader, info.text⟩ := by
  simp only [add_document_body] at h
  obtain ⟨db1, h1, h2⟩ := bind_ok_elim h
  injection h2 with h2; subst h2
  simp [setMap]

/-- Claim C9: `add_document` is idempotent on identical input. If adding
`info` to a database succeeded and produced `db1`, then adding the very
same `info` again returns `db1` itself unchanged (so every term count,
per-document count and distinct-document count is exactly as after the
first call): the stored document's text and reader match, so the second
call takes the early-return path. -/
theorem C9_theorem (db : TermDB) (info : DocInfo) (db1 : TermDB)
    (h : add_document db info = .ok db1) : add_document db1 info = .ok db1 := by
  unfold add_document at h
  split at h
  · rename_i doc hdoc
    split at h
    · rename_i hsame
      injection h with h; subst h
      unfold add_document
      rw [hdoc]
      simp [hsame]
    · rename_i hsame
      obtain ⟨dbc, hc, hb⟩ := bind_ok_elim h
      have hd := add_document_body_documents hb
      unfold add_document
      rw [hd]
      simp
  · rename_i hdoc
    have hd := add_document_body_documents h
    unfold add_document
    rw [hd]
    simp

/-- Witness for C9_theorem: adding the one-term document `docCat` to the
empty database yields `st_cat`, and re-adding the identical document to
`st_cat` returns `st_cat` unchanged. -/
theorem C9_witness :
    add_document emptyDB docCat = .ok st_cat ∧
    add_document st_cat docCat = .ok st_cat :=
  ⟨rfl, C9_theorem emptyDB docCat st_cat rfl⟩

/-! ### C10: effect of increment_term_in_document on the counters -/

/-- Bumping the `(t, d)` row adds `v` to exactly that row's count. -/
lemma lookupRow_bump_self (rows : List DocTermRow) (t : PyTerm) (d : String) (v : ℚ) :
    lookupRow (bumpRow rows t d v) t d = (lookupRow rows t d).map (· + v) := by
  induction rows with
  | nil => rfl
  | cons r rest ih =>
    by_cases hb : r.1 = t ∧ r.2.1 = d
    · simp only [bumpRow, if_pos hb, lookupRow, Option.map_some']
    · simp only [bumpRow, if_neg hb, lookupRow, if_neg hb]
      exact ih

/-- Bumping the `(t, d)` row leaves every other `(t', d')` lookup
unchanged. -/
lemma lookupRow_bump_other (rows : List DocTermRow) (t : PyTerm) (d : String) (v : ℚ)
    (t' : PyTerm) (d' : String) (hne : ¬(t' = t ∧ d' = d)) :
    lookupRow (bumpRow rows t d v) t' d' = lookupRow rows t' d' := by
  induction rows with
  | nil => rfl
  | cons r rest ih =>
    by_cases hb : r.1 = t ∧ r.2.1 = d
    · have hb' : ¬(r.1 = t' ∧ r.2.1 = d') := by
        intro hc
        exact hne ⟨hb.1 ▸ hc.1.symm, hb.2 ▸ hc.2.symm⟩
      simp only [bumpRow, if_pos hb, lookupRow, if_neg hb']
    · simp only [bumpRow, if_neg hb, lookupRow]
      by_cases hb2 : r.1 = t' ∧ r.2.1 = d'
      · simp only [if_pos hb2]
      · simp only [if_neg hb2]
        exact ih

/-- Appending a fresh `(t, d)` row makes its lookup return `v` when no
row for `(t, d)` existed. -/
lemma lookupRow_append_self (rows : List DocTermRow) (t : PyTerm) (d : String) (v : ℚ)
    (h : lookupRow rows t d = none) :
    lookupRow (rows ++ [(t, d, v)]) t d = some v := by
  induction rows with
  | nil => simp [lookupRow]
  | cons r rest ih =>
    by_cases hb : r.1 = t ∧ r.2.1 = d
    · simp only [lookupRow, if_pos hb] at h
      exact Option.noConfusion h
    · simp only [lookupRow, if_neg hb, List.cons_append] at h ⊢
      exact ih h

/-- Appending a `(t, d)` row leaves every other `(t', d')` lookup
unchanged. -/
lemma lookupRow_append_other (rows : List DocTermRow) (t : PyTerm) (d : String) (v : ℚ)
    (t' : PyTerm) (d' : String) (hne : ¬(t' = t ∧ d' = d)) :
    lookupRow (rows ++ [(t, d, v)]) t' d' = lookupRow rows t' d' := by
  induction rows with
  | nil =>
    have hb : ¬((t, d, v).1 = t' ∧ (t, d, v).2.1 = d') := by
      intro hc
      exact hne ⟨hc.1.symm, hc.2.symm⟩
    simp only [List.nil_append, lookupRow, if_neg hb]
  | cons r rest ih =>
    by_cases hb : r.1 = t' ∧ r.2.1 = d'
    · simp only [lookupRow, List.cons_append, if_pos hb]
    · simp only [lookupRow, List.cons_append, if_neg hb]
      exact ih

/-- `_increment_term_document_count` leaves the `terms` table alone. -/
lemma itdc_terms (db : TermDB) (d : String) (t : PyTerm) (v : ℚ) :
    (_increment_term_document_count db d t v).2.terms = db.terms := by
  unfold _increment_term_document_count
  split <;> rfl

/-- The Bool returned by `_increment_term_document_count` is exactly
"no row for (t, d) existed". -/
lemma itdc_fst (db : TermDB) (d : String) (t : PyTerm) (v : ℚ) :
    (_increment_term_document_count db d t v).1
      = (lookupRow db.docTerms t d).isNone := by
  unfold _increment_term_document_count
  cases h : lookupRow db.docTerms t d <;> simp [h]

/-- `_increment_term_document_count` adds `v` to the per-document count
of `(t, d)`. -/
lemma itdc_count_self (db : TermDB) (d : String) (t : PyTerm) (v : ℚ) :
    count_term_in_document (_increment_term_document_count db d t v).2 t d
      = count_term_in_document db t d + v := by
  unfold _increment_term_document_count count_term_in_document
  cases h : lookupRow db.docTerms t d with
  | some c =>
    simp only [lookupRow_bump_self, h, Option.map_some', Option.getD_some]
  | none =>
    simp only [lookupRow_append_self db.docTerms t d v h, h,
               Option.getD_some, Option.getD_none, zero_add]

/-- `_increment_term_document_count` does not change other rows'
per-document counts. -/
lemma itdc_count_other (db : TermDB) (d : String) (t : PyTerm) (v : ℚ)
    (t' : PyTerm) (d' : String) (hne : ¬(t' = t ∧ d' = d)) :
    count_term_in_document (_increment_term_document_count db d t v).2 t' d'
      = count_term_in_document db t' d' := by
  unfold _increment_term_document_count count_term_in_document
  cases h : lookupRow db.docTerms t d with
  | some c => simp only [lookupRow_bump_other db.docTerms t d v t' d' hne]
  | none => simp only [lookupRow_append_other db.docTerms t d v t' d' hne]

/-- `_increment_term_document_count` does not change other rows'
lookups. -/
lemma itdc_lookup_other (db : TermDB) (d : String) (t : PyTerm) (v : ℚ)
    (t' : PyTerm) (d' : String) (hne : ¬(t' = t ∧ d' = d)) :
    lookupRow (_increment_term_document_count db d t v).2.docTerms t' d'
      = lookupRow db.docTerms t' d' := by
  unfold _increment_term_document_count
  cases h : lookupRow db.docTerms t d with
  | some c => simp only [lookupRow_bump_other db.docTerms t d v t' d' hne]
  | none => simp only [lookupRow_append_other db.docTerms t d v t' d' hne]

/-- Specification of a successful `_increment_term_count`: the global
count grows by `v`, the distinct-document count by 1 when `newdoc`, and
nothing else in the `terms` and `document_terms` tables changes. -/
lemma itc_ok (v : ℚ) {db : TermDB} {t : PyTerm} {nd : Bool}
    (hcond : db.terms t ≠ none ∨ nd = true) :
    ∃ db', _increment_term_count db t v nd = .ok db' ∧
      db'.docTerms = db.docTerms ∧
      term_global_count db' t = term_global_count db t + v ∧
      count_term_distinct_documents db' t
        = count_term_distinct_documents db t + (if nd then 1 else 0) ∧
      (∀ t', t' ≠ t → db'.terms t' = db.terms t') ∧
      db'.terms t ≠ none := by
  unfold _increment_term_count
  cases hdb : db.terms t with
  | some e =>
    refine ⟨_, rfl, rfl, ?_, ?_, ?_, ?_⟩
    · simp [term_global_count, setMap, hdb]
    · simp [count_term_distinct_documents, setMap, hdb]
    · intro t' hne
      simp [setMap, hne]
    · simp [setMap]
  | none =>
    have hnd : nd = true := by
      rcases hcond with h | h
      · exact absurd hdb h
      · exact h
    subst hnd
    refine ⟨_, rfl, rfl, ?_, ?_, ?_, ?_⟩
    · simp [term_global_count, setMap, hdb]
    · simp [count_term_distinct_documents, setMap, hdb]
    · intro t' hne
      simp [setMap, hne]
    · simp [setMap]

/-- `term_relevance` succeeds on every one- or two-word string term. -/
lemma term_relevance_ok {db : TermDB} {s : String}
    (h : (splitWords s).length = 1 ∨ (splitWords s).length = 2) :
    ∃ r, term_relevance db (.str s) = .ok r := by
  simp only [term_relevance]
  rcases h with h | h
  · rw [if_pos h]
    exact ⟨_, rfl⟩
  · rw [if_neg (by omega), if_pos h]
    exact ⟨_, rfl⟩

/-- Specification of a successful `_update_term_relevance`: only the
stored relevance changes; every counter is untouched. -/
lemma utr_ok {db : TermDB} {t : PyTerm} (r : ℝ)
    (hrel : term_relevance db t = .ok r) (hsome : db.terms t ≠ none) :
    ∃ db', _update_term_relevance db t = .ok db' ∧
      db'.docTerms = db.docTerms ∧
      (∀ t', term_global_count db' t' = term_global_count db t') ∧
      (∀ t', count_term_distinct_documents db' t'
        = count_term_distinct_documents db t') := by
  unfold _update_term_relevance
  rw [hrel, except_bind_ok]
  cases hdb : db.terms t with
  | some e =>
    refine ⟨_, rfl, rfl, ?_, ?_⟩
    · intro t'
      by_cases h : t' = t
      · subst h; simp [term_global_count, setMap, hdb]
      · simp [term_global_count, setMap, h]
    · intro t'
      by_cases h : t' = t
      · subst h; simp [count_term_distinct_documents, setMap, hdb]
      · simp [count_term_distinct_documents, setMap, h]
  | none => exact absurd hdb hsome

/-- Two states with the same `document_terms` rows agree on all
per-document counts. -/
lemma count_tid_congr {a b : TermDB} (h : a.docTerms = b.docTerms)
    (t : PyTerm) (d : String) :
    count_term_in_document a t d = count_term_in_document b t d := by
  unfold count_term_in_document
  rw [h]

/-- Two states agreeing on a term's row agree on its global count. -/
lemma tg_congr {a b : TermDB} {t : PyTerm} (h : a.terms t = b.terms t) :
    term_global_count a t = term_global_count b t := by
  unfold term_global_count
  rw [h]

/-- Claim C10: observing a non-tag term (a one- or two-word string
distinct from the sentinel ANY) in a document with signed weight `v`
succeeds — assuming the table invariant that a `(term, document)` row
implies a `terms` row, for the term and for ANY — and adds the signed
`v` to the term's per-document count, while the term's global count,
ANY's per-document count and ANY's global count all grow by `|v|`;
consequently a negative weight strictly decreases the per-document
count while the global counters never decrease. -/
theorem C10_theorem (db : TermDB) (doc : String) (s : String) (v : ℚ)
    (hANY : PyTerm.str s ≠ ANY)
    (hwords : (splitWords s).length = 1 ∨ (splitWords s).length = 2)
    (hcons1 : lookupRow db.docTerms (.str s) doc ≠ none → db.terms (.str s) ≠ none)
    (hcons2 : lookupRow db.docTerms ANY doc ≠ none → db.terms ANY ≠ none) :
    ∃ db', increment_term_in_document db doc (.str s) v = .ok db' ∧
      count_term_in_document db' (.str s) doc
        = count_term_in_document db (.str s) doc + v ∧
      term_global_count db' (.str s) = term_global_count db (.str s) + |v| ∧
      count_term_in_document db' ANY doc
        = count_term_in_document db ANY doc + |v| ∧
      term_global_count db' ANY = term_global_count db ANY + |v| ∧
      (v < 0 → count_term_in_document db' (.str s) doc
        < count_term_in_document db (.str s) doc) := by
  have h1terms := itdc_terms db doc (.str s) v
  have h1fst := itdc_fst db doc (.str s) v
  have hcond2 : (_increment_term_document_count db doc (.str s) v).2.terms (.str s) ≠ none
      ∨ (_increment_term_document_count db doc (.str s) v).1 = true := by
    rw [h1terms, h1fst]
    cases hl : lookupRow db.docTerms (.str s) doc with
    | some c =>
      exact Or.inl (hcons1 (by rw [hl]; exact fun hc => Option.noConfusion hc))
    | none => exact Or.inr rfl
  obtain ⟨db2, hok2, hdt2, hg2, hd2, hoth2, hself2⟩ := itc_ok |v| hcond2
  have h3terms := itdc_terms db2 doc ANY |v|
  have h3fst := itdc_fst db2 doc ANY |v|
  have hlANY : lookupRow db2.docTerms ANY doc = lookupRow db.docTerms ANY doc := by
    rw [hdt2]
    exact itdc_lookup_other db doc (.str s) v ANY doc (fun hc => hANY hc.1.symm)
  have hcond4 : (_increment_term_document_count db2 doc ANY |v|).2.terms ANY ≠ none
      ∨ (_increment_term_document_count db2 doc ANY |v|).1 = true := by
    rw [h3terms, h3fst, hlANY]
    cases hl : lookupRow db.docTerms ANY doc with
    | some c =>
      refine Or.inl ?_
      have hdbANY := hcons2 (by rw [hl]; exact fun hc => Option.noConfusion hc)
      rw [hoth2 ANY (fun hc => hANY hc.symm), h1terms]
      exact hdbANY
    | none => exact Or.inr rfl
  obtain ⟨db4, hok4, hdt4, hg4, hd4, hoth4, hself4⟩ := itc_ok |v| hcond4
  obtain ⟨r, hrel⟩ := @term_relevance_ok db4 s hwords
  have hsome5 : db4.terms (.str s) ≠ none := by
    rw [hoth4 (.str s) hANY, h3terms]
    exact hself2
  obtain ⟨db5, hok5, hdt5, hg5, hd5⟩ := utr_ok r hrel hsome5
  have hCself : count_term_in_document db5 (.str s) doc
      = count_term_in_document db (.str s) doc + v := by
    rw [count_tid_congr hdt5 (.str s) doc, count_tid_congr hdt4 (.str s) doc,
        itdc_count_other db2 doc ANY |v| (.str s) doc (fun hc => hANY hc.1),
        count_tid_congr hdt2 (.str s) doc, itdc_count_self db doc (.str s) v]
  refine ⟨db5, ?_, hCself, ?_, ?_, ?_, ?_⟩
  · simp only [increment_term_in_document]
    rw [hok2]
    simp only [except_bind_ok]
    rw [hok4]
    simp only [except_bind_ok]
    exact hok5
  · rw [hg5 (.str s), tg_congr (hoth4 (.str s) hANY),
        tg_congr (congrFun h3terms (.str s)), hg2,
        tg_congr (congrFun h1terms (.str s))]
  · rw [count_tid_congr hdt5 ANY doc, count_tid_congr hdt4 ANY doc,
        itdc_count_self db2 doc ANY |v|, count_tid_congr hdt2 ANY doc,
        itdc_count_other db doc (.str s) v ANY doc (fun hc => hANY hc.1.symm)]
  · rw [hg5 ANY, hg4, tg_congr (congrFun h3terms ANY),
        tg_congr (hoth2 ANY (fun hc => hANY hc.symm)),
        tg_congr (congrFun h1terms ANY)]
  · intro hv
    rw [hCself]
    linarith

/-- Witness for C10_theorem: observing "cat" with the negative weight
-1/2 in a fresh document of the empty database. -/
theorem C10_witness :
    ∃ db', increment_term_in_document emptyDB "#w" (.str "cat") (-1/2) = .ok db' ∧
      count_term_in_document db' (.str "cat") "#w"
        = count_term_in_document emptyDB (.str "cat") "#w" + (-1/2) ∧
      term_global_count db' (.str "cat")
        = term_global_count emptyDB (.str "cat") + |(-1/2 : ℚ)| ∧
      count_term_in_document db' ANY "#w"
        = count_term_in_document emptyDB ANY "#w" + |(-1/2 : ℚ)| ∧
      term_global_count db' ANY = term_global_count emptyDB ANY + |(-1/2 : ℚ)| ∧
      ((-1/2 : ℚ) < 0 → count_term_in_document db' (.str "cat") "#w"
        < count_term_in_document emptyDB (.str "cat") "#w") :=
  C10_theorem emptyDB "#w" "cat" (-1/2) (by decide) (Or.inl (by decide))
    (fun h => absurd rfl h) (fun h => absurd rfl h)

/-! ### C8: the bigram likelihood ratio as a function of the bigram
count -/

/-- Closed form of `bigram_likelihood_ratio`: the four contingency cells
are `x+1`, `n2-x+1`, `n1-x+1`, `n-n1-n2+x+1`, and the four expected
values depend only on the margins `n1`, `n2`, `n` — not on `x`. -/
lemma bigram_closed (x n1 n2 n : ℝ) :
    bigram_likelihood_ratio x n1 n2 n =
      2 * ((x+1) * Real.log ((x+1) / ((n2+2)*(n1+2)/(n+4) + _SMALL) + _SMALL)
         + ((n2-x+1) * Real.log ((n2-x+1) / ((n2+2)*(n-n1+2)/(n+4) + _SMALL) + _SMALL)
         + ((n1-x+1) * Real.log ((n1-x+1) / ((n-n2+2)*(n1+2)/(n+4) + _SMALL) + _SMALL)
         + (n-n1-n2+x+1) * Real.log ((n-n1-n2+x+1) / ((n-n2+2)*(n-n1+2)/(n+4) + _SMALL) + _SMALL)))) := by
  unfold bigram_likelihood_ratio _expected_values
  simp [List.range_succ]
  ring_nf

/-- The smoothing constant is a (tiny) positive real. -/
lemma SMALL_pos : (0:ℝ) < _SMALL := by
  rw [show (_SMALL : ℝ) = 1e-22 from rfl]
  norm_num

/-- A loose upper bound on the smoothing constant. -/
lemma SMALL_le : (_SMALL : ℝ) ≤ 0.001 := by
  rw [show (_SMALL : ℝ) = 1e-22 from rfl]
  norm_num

/-- Claim C8, counterexample. The claim states the likelihood-ratio
relevance never decreases when the bigram count increases with the
other counts fixed. With `count(t1) = count(t2) = 4` and
`count(ANY) = 8`, raising the bigram count from 0 to 2 — the
independence point, where all smoothed cells equal their expected
value 3 — strictly decreases the statistic (from about 5.8 to about 0). -/
theorem C8_counterexample :
    bigram_likelihood_ratio 2 4 4 8 < bigram_likelihood_ratio 0 4 4 8 := by
  have hS : (0:ℝ) < _SMALL := SMALL_pos
  have hS1 : (_SMALL : ℝ) ≤ 0.001 := SMALL_le
  have h3S : (0:ℝ) < 3 + _SMALL := by linarith
  have e2 : bigram_likelihood_ratio 2 4 4 8
      = 24 * Real.log (3 / (3 + _SMALL) + _SMALL) := by
    rw [bigram_closed]
    norm_num
    ring
  have e0 : bigram_likelihood_ratio 0 4 4 8
      = 4 * Real.log (1 / (3 + _SMALL) + _SMALL)
        + 20 * Real.log (5 / (3 + _SMALL) + _SMALL) := by
    rw [bigram_closed]
    norm_num
    ring
  have hL3 : Real.log (3 / (3 + _SMALL) + _SMALL) ≤ 0.001 := by
    have harg : (0:ℝ) < 3 / (3 + _SMALL) + _SMALL := by
      have := div_pos (show (0:ℝ) < 3 by norm_num) h3S
      linarith
    have hle : 3 / (3 + _SMALL) + _SMALL ≤ 1.001 := by
      have h1 : 3 / (3 + _SMALL) ≤ 1 := by
        rw [div_le_one h3S]
        linarith
      linarith
    have := Real.log_le_sub_one_of_pos harg
    linarith
  have hL5 : (3:ℝ)/8 ≤ Real.log (5 / (3 + _SMALL) + _SMALL) := by
    have hpos : (0:ℝ) < 5 / (3 + _SMALL) + _SMALL := by
      have := div_pos (show (0:ℝ) < 5 by norm_num) h3S
      linarith
    have h85 : (8:ℝ)/5 ≤ 5 / (3 + _SMALL) + _SMALL := by
      have h1 : (8:ℝ)/5 ≤ 5 / (3 + _SMALL) := by
        rw [div_le_div_iff₀ (by norm_num) h3S]
        linarith
      linarith
    have hlog85 : (3:ℝ)/8 ≤ Real.log (8/5) := by
      have h := Real.log_le_sub_one_of_pos (show (0:ℝ) < 5/8 by norm_num)
      have hi : Real.log ((5:ℝ)/8) = - Real.log (8/5) := by
        rw [show ((5:ℝ)/8) = (8/5)⁻¹ by norm_num, Real.log_inv]
      rw [hi] at h
      linarith
    calc (3:ℝ)/8 ≤ Real.log (8/5) := hlog85
      _ ≤ Real.log (5 / (3 + _SMALL) + _SMALL) := by
          rw [Real.log_le_log_iff (by norm_num) hpos]
          exact h85
  have hL1 : -(1.2932:ℝ) ≤ Real.log (1 / (3 + _SMALL) + _SMALL) := by
    have hpos : (0:ℝ) < 1 / (3 + _SMALL) + _SMALL := by
      have := div_pos (show (0:ℝ) < 1 by norm_num) h3S
      linarith
    have h516 : (5:ℝ)/16 ≤ 1 / (3 + _SMALL) + _SMALL := by
      have h1 : (5:ℝ)/16 ≤ 1 / (3 + _SMALL) := by
        rw [div_le_div_iff₀ (by norm_num) h3S]
        linarith
      linarith
    have hlog165 : Real.log ((16:ℝ)/5) ≤ 1.2932 := by
      have he : ((16:ℝ)/5) = 2 * (8/5) := by norm_num
      rw [he, Real.log_mul (by norm_num) (by norm_num)]
      have h2 : Real.log 2 < 0.6931471808 := Real.log_two_lt_d9
      have h85 : Real.log ((8:ℝ)/5) ≤ 3/5 := by
        have := Real.log_le_sub_one_of_pos (show (0:ℝ) < 8/5 by norm_num)
        linarith
      linarith
    have hmono : Real.log ((5:ℝ)/16) ≤ Real.log (1 / (3 + _SMALL) + _SMALL) := by
      rw [Real.log_le_log_iff (by norm_num) hpos]
      exact h516
    have hneg : Real.log ((5:ℝ)/16) = - Real.log (16/5) := by
      rw [show ((5:ℝ)/16) = (16/5)⁻¹ by norm_num, Real.log_inv]
    rw [hneg] at hmono
    linarith
  rw [e2, e0]
  linarith

/-- Convexity transfers along pointwise equality on the set. -/
lemma convexOn_congr {f g : ℝ → ℝ} {s : Set ℝ} (h : Set.EqOn f g s)
    (hf : ConvexOn ℝ s f) : ConvexOn ℝ s g := by
  refine ⟨hf.1, fun x hx y hy p q hp hq hpq => ?_⟩
  rw [← h hx, ← h hy, ← h (hf.1 hx hy hp hq hpq)]
  exact hf.2 hx hy hp hq hpq

/-- Convexity is preserved by precomposing with a translation. -/
lemma convexOn_comp_add {f : ℝ → ℝ} {s : Set ℝ} (hf : ConvexOn ℝ s f) (b : ℝ) :
    ConvexOn ℝ {x : ℝ | x + b ∈ s} (fun x => f (x + b)) := by
  constructor
  · intro x hx y hy p q hp hq hpq
    have he : (p • x + q • y) + b = p • (x + b) + q • (y + b) := by
      simp only [smul_eq_mul]
      have hb : b = p * b + q * b := by rw [← add_mul, hpq, one_mul]
      linarith
    show (p • x + q • y) + b ∈ s
    rw [he]
    exact hf.1 hx hy hp hq hpq
  · intro x hx y hy p q hp hq hpq
    have he : (p • x + q • y) + b = p • (x + b) + q • (y + b) := by
      simp only [smul_eq_mul]
      have hb : b = p * b + q * b := by rw [← add_mul, hpq, one_mul]
      linarith
    show f ((p • x + q • y) + b) ≤ p • f (x + b) + q • f (y + b)
    rw [he]
    exact hf.2 hx hy hp hq hpq

/-- Convexity is preserved by precomposing with a reflection about `b`. -/
lemma convexOn_comp_sub {f : ℝ → ℝ} {s : Set ℝ} (hf : ConvexOn ℝ s f) (b : ℝ) :
    ConvexOn ℝ {x : ℝ | b - x ∈ s} (fun x => f (b - x)) := by
  constructor
  · intro x hx y hy p q hp hq hpq
    have he : b - (p • x + q • y) = p • (b - x) + q • (b - y) := by
      simp only [smul_eq_mul]
      have hb : b = p * b + q * b := by rw [← add_mul, hpq, one_mul]
      linarith
    show b - (p • x + q • y) ∈ s
    rw [he]
    exact hf.1 hx hy hp hq hpq
  · intro x hx y hy p q hp hq hpq
    have he : b - (p • x + q • y) = p • (b - x) + q • (b - y) := by
      simp only [smul_eq_mul]
      have hb : b = p * b + q * b := by rw [← add_mul, hpq, one_mul]
      linarith
    show f (b - (p • x + q • y)) ≤ p • f (b - x) + q • f (b - y)
    rw [he]
    exact hf.2 hx hy hp hq hpq

/-- A linear function is convex on any convex set. -/
lemma convexOn_linear (m : ℝ) {s : Set ℝ} (hs : Convex ℝ s) :
    ConvexOn ℝ s (fun x => m * x) := by
  refine ⟨hs, fun x hx y hy p q hp hq hpq => ?_⟩
  simp only [smul_eq_mul]
  have : m * (p * x + q * y) = p * (m * x) + q * (m * y) := by ring
  rw [this]

/-- The smoothed cell contribution `t * log(t/c + _SMALL)` is convex in
the observed cell value `t` on `t ≥ 0`, for any positive `c`. It equals
`(t+a) log(t+a) - a log(t+a) - t log c` with `a = _SMALL * c > 0`: a
shifted copy of the convex `u log u`, plus a positive multiple of the
convex `-log`, plus a linear term. -/
lemma cell_convexOn (c : ℝ) (hc : 0 < c) :
    ConvexOn ℝ (Set.Ici 0) (fun t => t * Real.log (t / c + _SMALL)) := by
  have hS : (0:ℝ) < _SMALL := SMALL_pos
  have ha : 0 < _SMALL * c := mul_pos hS hc
  have hA : ConvexOn ℝ (Set.Ici 0)
      (fun t => (t + _SMALL * c) * Real.log (t + _SMALL * c)) := by
    refine (convexOn_comp_add Real.convexOn_mul_log (_SMALL * c)).subset ?_ (convex_Ici 0)
    intro x hx
    simp only [Set.mem_Ici] at hx
    show x + _SMALL * c ∈ Set.Ici (0:ℝ)
    simp only [Set.mem_Ici]
    linarith
  have hBneg : ConvexOn ℝ (Set.Ici 0) (fun t => -Real.log (t + _SMALL * c)) := by
    have hconc := strictConcaveOn_log_Ioi.concaveOn.neg
    refine (convexOn_comp_add hconc (_SMALL * c)).subset ?_ (convex_Ici 0)
    intro x hx
    simp only [Set.mem_Ici] at hx
    show x + _SMALL * c ∈ Set.Ioi (0:ℝ)
    simp only [Set.mem_Ioi]
    linarith
  have hB : ConvexOn ℝ (Set.Ici 0)
      (fun t => (_SMALL * c) • (-Real.log (t + _SMALL * c))) :=
    hBneg.smul (le_of_lt ha)
  have hC : ConvexOn ℝ (Set.Ici 0) (fun t => -Real.log c * t) :=
    convexOn_linear (-Real.log c) (convex_Ici 0)
  have hsum := (hA.add hB).add hC
  refine convexOn_congr ?_ hsum
  intro t ht
  simp only [Set.mem_Ici] at ht
  have htpos : 0 < t + _SMALL * c := by linarith
  have harg : t / c + _SMALL = (t + _SMALL * c) / c := by
    field_simp
  simp only [Pi.add_apply, smul_eq_mul]
  rw [harg, Real.log_div (ne_of_gt htpos) (ne_of_gt hc)]
  ring

/-- Claim C8, amended: the likelihood-ratio relevance is NOT monotone in
the bigram count; it is a convex function of the bigram count (on the
range where the smoothed contingency cells stay meaningful, given
nonnegative unigram counts with `n1 + n2 ≤ n`): it decreases toward the
independence point and increases beyond it, so increasing `n_12` can
decrease the relevance (as the counterexample shows) but the statistic
never dips again after it has started rising. -/
theorem C8_theorem (n1 n2 n : ℝ) (h1 : 0 ≤ n1) (h2 : 0 ≤ n2) (hn : n1 + n2 ≤ n) :
    ConvexOn ℝ (Set.Icc 0 (min n1 n2)) (fun x => bigram_likelihood_ratio x n1 n2 n) := by
  have hS := SMALL_pos
  have hn4 : (0:ℝ) < n + 4 := by linarith
  have hc0 : (0:ℝ) < (n2+2)*(n1+2)/(n+4) + _SMALL := by
    have : (0:ℝ) < (n2+2)*(n1+2)/(n+4) := div_pos (by nlinarith) hn4
    linarith
  have hc1 : (0:ℝ) < (n2+2)*(n-n1+2)/(n+4) + _SMALL := by
    have : (0:ℝ) < (n2+2)*(n-n1+2)/(n+4) := div_pos (by nlinarith) hn4
    linarith
  have hc2 : (0:ℝ) < (n-n2+2)*(n1+2)/(n+4) + _SMALL := by
    have : (0:ℝ) < (n-n2+2)*(n1+2)/(n+4) := div_pos (by nlinarith) hn4
    linarith
  have hc3 : (0:ℝ) < (n-n2+2)*(n-n1+2)/(n+4) + _SMALL := by
    have : (0:ℝ) < (n-n2+2)*(n-n1+2)/(n+4) := div_pos (by nlinarith) hn4
    linarith
  have hDsub0 : Set.Icc (0:ℝ) (min n1 n2) ⊆ {x : ℝ | x + 1 ∈ Set.Ici 0} := by
    intro x hx
    have hx0 := hx.1
    show x + 1 ∈ Set.Ici (0:ℝ)
    simp only [Set.mem_Ici]
    linarith
  have hDsub1 : Set.Icc (0:ℝ) (min n1 n2) ⊆ {x : ℝ | (n2+1) - x ∈ Set.Ici 0} := by
    intro x hx
    have hx2 : x ≤ n2 := le_trans hx.2 (min_le_right _ _)
    show (n2+1) - x ∈ Set.Ici (0:ℝ)
    simp only [Set.mem_Ici]
    linarith
  have hDsub2 : Set.Icc (0:ℝ) (min n1 n2) ⊆ {x : ℝ | (n1+1) - x ∈ Set.Ici 0} := by
    intro x hx
    have hx2 : x ≤ n1 := le_trans hx.2 (min_le_left _ _)
    show (n1+1) - x ∈ Set.Ici (0:ℝ)
    simp only [Set.mem_Ici]
    linarith
  have hDsub3 : Set.Icc (0:ℝ) (min n1 n2) ⊆ {x : ℝ | x + (n-n1-n2+1) ∈ Set.Ici 0} := by
    intro x hx
    have hx0 := hx.1
    show x + (n-n1-n2+1) ∈ Set.Ici (0:ℝ)
    simp only [Set.mem_Ici]
    linarith
  have hP0 := (convexOn_comp_add (cell_convexOn _ hc0) 1).subset hDsub0
    (convex_Icc _ _)
  have hP1 := (convexOn_comp_sub (cell_convexOn _ hc1) (n2+1)).subset hDsub1
    (convex_Icc _ _)
  have hP2 := (convexOn_comp_sub (cell_convexOn _ hc2) (n1+1)).subset hDsub2
    (convex_Icc _ _)
  have hP3 := (convexOn_comp_add (cell_convexOn _ hc3) (n-n1-n2+1)).subset hDsub3
    (convex_Icc _ _)
  have hsum := (((hP0.add hP1).add hP2).add hP3).smul (show (0:ℝ) ≤ 2 by norm_num)
  refine convexOn_congr ?_ hsum
  intro x hx
  simp only [Pi.add_apply, smul_eq_mul]
  rw [bigram_closed]
  ring_nf

/-- Witness for C8_theorem at the counterexample's margins
`n1 = n2 = 4`, `n = 8`. -/
theorem C8_witness :
    ConvexOn ℝ (Set.Icc 0 (min 4 4))
      (fun x => bigram_likelihood_ratio x 4 4 8) :=
  C8_theorem 4 4 8 (by norm_num) (by norm_num) (by norm_num)

end Luminoso
